import Mathlib

/-!
Shallow embedding of the browser-side DTI prediction client
(src/static/js/predict.js and src/static/js/prediction_results.js).

Conventions of the embedding:
- JavaScript numbers are modelled as rationals.  The comparisons in the
  code only involve short decimal literals, which are exact in both
  binary floating point and in the rationals at the precision used here.
- A JavaScript value that may be null or undefined is modelled as an
  Option.  The idiom x || d on numbers is jsOrQ, on strings jsOrStr.
- toFixed(3) produces a decimal string; the embedding keeps its numeric
  value (round to the nearest multiple of 1/1000, choosing the larger
  value on a tie, which is what the ECMAScript toFixed algorithm does
  for the nonnegative values that occur here).
- The DOM writes performed by a method are recorded in explicit state
  fields (progress counters, alert box, rendered table rows, ...), and
  the ajax calls a method issues are returned as Request values.
-/

namespace DTI

/-- One predicted compound-target pair, as consumed from the status and
results payloads (fields smiles, protein, gene, protein_id, score, id). -/
structure Interaction where
  id : Option String
  smiles : String
  protein : String
  gene : String
  proteinId : String
  score : ℚ
deriving DecidableEq

/-- Numeric value of the ECMAScript toFixed(3) rendering: the integer n
with n / 1000 closest to q, the larger n on a tie, divided by 1000. -/
def toFixed3 (q : ℚ) : ℚ := ((⌊q * 1000 + 1 / 2⌋ : ℤ) : ℚ) / 1000

/-- JavaScript o || 0 on an optional number (0 is falsy, so a present 0
and an absent value both give 0). -/
def jsOrQ (o : Option ℚ) : ℚ :=
  match o with
  | none => 0
  | some q => q

/-- JavaScript o || d on an optional string (the empty string is falsy). -/
def jsOrStr (o : Option String) (d : String) : String :=
  match o with
  | none => d
  | some s => if s = "" then d else s

/-- JavaScript String.prototype.trim: strip leading and trailing
whitespace.  Defined over the character list so that it computes by
kernel reduction; it agrees with the built-in trim on the whitespace
classes that occur in the inputs considered here. -/
def jsTrim (s : String) : String :=
  ⟨((s.data.dropWhile Char.isWhitespace).reverse.dropWhile Char.isWhitespace).reverse⟩

/-- PredictionResults.getConfidenceLevel (prediction_results.js 175-179). -/
def getConfidenceLevel (score : ℚ) : String :=
  if 0.95 ≤ score then "High" else if 0.8 ≤ score then "Medium" else "Low"

/-- PredictionResults.getConfidenceClass (prediction_results.js 181-185). -/
def getConfidenceClass (score : ℚ) : String :=
  if 0.95 ≤ score then "success" else if 0.8 ≤ score then "warning" else "secondary"

/-- The inline ternary chain for the badge class in
DTIPrediction.populateResultsTable (predict.js 428-429). -/
def confidenceClassOf (score : ℚ) : String :=
  if 0.95 ≤ score then "success" else if 0.8 ≤ score then "warning" else "secondary"

/-- The inline ternary chain for the badge text in
DTIPrediction.populateResultsTable (predict.js 431-432). -/
def confidenceTextOf (score : ℚ) : String :=
  if 0.95 ≤ score then "High" else if 0.8 ≤ score then "Medium" else "Low"

/-- The reduce over scores with initial accumulator 0, as written in
updateSummaryStats and displayResults. -/
def jsSum (l : List Interaction) : ℚ :=
  l.foldl (fun sum i => sum + i.score) 0

/-- Summary values written to the DOM by
PredictionResults.updateSummaryStats; avgScore holds the numeric value
of the rendered average text (the guarded branch renders 0.000). -/
structure SummaryStats where
  totalInteractions : ℕ
  highConfidence : ℕ
  uniqueTargets : ℕ
  avgScore : ℚ
deriving DecidableEq

/-- PredictionResults.updateSummaryStats (prediction_results.js 88-99):
length, count of score >= 0.95, size of the Set of protein names, and
the average guarded by totalInteractions > 0. -/
def updateSummaryStats (l : List Interaction) : SummaryStats :=
  { totalInteractions := l.length
    highConfidence := (l.filter fun i => decide (0.95 ≤ i.score)).length
    uniqueTargets := (l.map fun i => i.protein).dedup.length
    avgScore :=
      if 0 < l.length then toFixed3 (jsSum l / (l.length : ℚ)) else 0 }

/-- The average text computed by DTIPrediction.displayResults
(predict.js 407-409).  There is no emptiness guard in that code: on an
empty list the reduce yields 0 and 0 / 0 is NaN, rendered as the string
NaN; the embedding models that NaN outcome as none. -/
def displayAvgScore (l : List Interaction) : Option ℚ :=
  if l.length = 0 then none else some (toFixed3 (jsSum l / (l.length : ℚ)))

/-- Summary values written to the DOM by DTIPrediction.displayResults
(predict.js 399-409); avgScore is none when the rendered text is NaN. -/
structure DisplaySummary where
  total : ℕ
  high : ℕ
  uniqueTargets : ℕ
  avgScore : Option ℚ
deriving DecidableEq

/-- The four summary writes of DTIPrediction.displayResults
(predict.js 399-409). -/
def displaySummary (l : List Interaction) : DisplaySummary :=
  { total := l.length
    high := (l.filter fun i => decide (0.95 ≤ i.score)).length
    uniqueTargets := (l.map fun i => i.protein).dedup.length
    avgScore := displayAvgScore l }

/-- Data of one rendered table row (both results tables render the
smiles, protein, gene, score and a confidence badge). -/
structure ResultRow where
  smiles : String
  protein : String
  proteinId : String
  gene : String
  score : ℚ
  badgeClass : String
  badgeText : String
deriving DecidableEq

/-- One row of DTIPrediction.populateResultsTable (predict.js 434-467). -/
def renderRow (i : Interaction) : ResultRow :=
  { smiles := i.smiles
    protein := i.protein
    proteinId := i.proteinId
    gene := i.gene
    score := i.score
    badgeClass := confidenceClassOf i.score
    badgeText := confidenceTextOf i.score }

/-- The rows appended by DTIPrediction.populateResultsTable
(predict.js 423-469): interactions.slice(0, 100).forEach(...). -/
def populateResultsTable (l : List Interaction) : List ResultRow :=
  (l.take 100).map renderRow

/-- The descending-score ordering used by the comparator
(a, b) => b.score - a.score: a precedes b when b.score <= a.score. -/
def scoreGE (a b : Interaction) : Prop := b.score ≤ a.score

instance : DecidableRel scoreGE := fun a b => inferInstanceAs (Decidable (b.score ≤ a.score))

instance : IsTotal Interaction scoreGE := ⟨fun a b => le_total b.score a.score⟩

instance : IsTrans Interaction scoreGE := ⟨fun _ _ _ h h2 => le_trans h2 h⟩

/-- The sort in PredictionResults.populateInteractionsTable
(prediction_results.js 106): [...interactions].sort((a, b) => b.score - a.score).
ECMAScript Array.prototype.sort is a stable sort, and a stable sort with
respect to a fixed total preorder is extensionally unique, so the stable
insertion sort by descending score is the same function. -/
def sortInteractions (l : List Interaction) : List Interaction :=
  List.insertionSort scoreGE l

/-- One row of PredictionResults.populateInteractionsTable
(prediction_results.js 112-146), whose badge uses getConfidenceLevel
and getConfidenceClass. -/
def renderInteractionRow (i : Interaction) : ResultRow :=
  { smiles := i.smiles
    protein := i.protein
    proteinId := i.proteinId
    gene := i.gene
    score := i.score
    badgeClass := getConfidenceClass i.score
    badgeText := getConfidenceLevel i.score }

/-- The rows appended by PredictionResults.populateInteractionsTable
(prediction_results.js 101-152): sort descending by score, then render
every row. -/
def populateInteractionsTable (l : List Interaction) : List ResultRow :=
  (sortInteractions l).map renderInteractionRow

/-- One entry of the prediction history ledger, as built by
DTIPrediction.addToHistory (predict.js 603-611). -/
structure HistoryEntry where
  id : Option String
  timestamp : String
  mode : String
  status : String
  resultsCount : ℕ
  smiles : Option String
  filename : Option String
deriving DecidableEq

/-- The ledger update of DTIPrediction.addToHistory (predict.js 613-618):
history.unshift(entry), then history.splice(10) when more than 10 entries
remain. -/
def addToHistory (e : HistoryEntry) (history : List HistoryEntry) : List HistoryEntry :=
  let h := e :: history
  if 10 < h.length then h.take 10 else h

/-- The body of the results field of a status payload; interactions may
itself be absent. -/
structure ResultsPayload where
  interactions : Option (List Interaction)
deriving DecidableEq

/-- A status payload as consumed by pollPredictionStatus, updateProgress
and predictionCompleted; every field is optional (the code reads each
with a falsy-default or an optional chain). -/
structure StatusData where
  status : Option String
  progress : Option ℚ
  processed : Option ℚ
  total : Option ℚ
  successCount : Option ℚ
  failedCount : Option ℚ
  eta : Option String
  results : Option ResultsPayload
  error : Option String
deriving DecidableEq

/-- The progress counters written to the DOM by updateProgress. -/
structure ProgressView where
  progressPct : ℚ
  processed : ℚ
  successCount : ℚ
  failedCount : ℚ
  eta : String
deriving DecidableEq

/-- The body of a single-prediction submission request (predict.js 225-230). -/
structure SingleData where
  smiles : String
  highConfidenceOnly : Bool
  includeStructure : Bool
  mode : String
deriving DecidableEq

/-- The multipart form of a batch submission request (predict.js 255-259). -/
structure BatchData where
  file : String
  smilesColumn : String
  idColumn : String
  mode : String
deriving DecidableEq

/-- An ajax request issued by the controller. -/
inductive Request where
  | single (data : SingleData)
  | batch (data : BatchData)
  | status (jobId : String)
  | cancel (jobId : String)
deriving DecidableEq

/-- A submission response: success flag, job_id and message fields. -/
structure SubmitResponse where
  success : Bool
  jobId : Option String
  message : Option String
deriving DecidableEq

/-- The mutable fields of the DTIPrediction object together with the DOM
state its methods read and write.  now holds the value the clock would
return for new Date().toISOString(), and the input fields mirror the
form controls. -/
structure ControllerState where
  currentMode : String
  predictionActive : Bool
  currentJob : Option String
  smilesInput : String
  highConfidenceChecked : Bool
  includeStructureChecked : Bool
  fileSelected : Option String
  smilesColumn : String
  idColumn : String
  fileNameText : String
  progressView : ProgressView
  progressVisible : Bool
  buttonsDisabled : Bool
  cancelVisible : Bool
  lastAlert : Option (String × String)
  renderedRows : List ResultRow
  resultsVisible : Bool
  summary : Option DisplaySummary
  history : List HistoryEntry
  now : String
deriving DecidableEq

/-- DTIPrediction.updateProgress (predict.js 335-357): writes every
counter with a falsy default, and shows the cancel button when the
reported status is running.  The local variable total is never used by
the DOM writes. -/
def updateProgress (d : StatusData) (st : ControllerState) : ControllerState :=
  { st with
    progressView :=
      { progressPct := jsOrQ d.progress
        processed := jsOrQ d.processed
        successCount := jsOrQ d.successCount
        failedCount := jsOrQ d.failedCount
        eta := jsOrStr d.eta "--:--" }
    cancelVisible := if d.status = some "running" then true else st.cancelVisible }

/-- DTIPrediction.hideProgress (predict.js 693-697). -/
def hideProgress (st : ControllerState) : ControllerState :=
  { st with progressVisible := false, buttonsDisabled := false, cancelVisible := false }

/-- DTIPrediction.showProgress (predict.js 679-691): shows the progress
container, disables both submit buttons and resets the counters through
updateProgress on an all-zero payload. -/
def showProgress (st : ControllerState) : ControllerState :=
  updateProgress
    { status := none, progress := some 0, processed := some 0, total := none,
      successCount := some 0, failedCount := some 0, eta := some "--:--",
      results := none, error := none }
    { st with progressVisible := true, buttonsDisabled := true }

/-- DTIPrediction.displayResults (predict.js 391-421): with no
interactions field the results section is hidden; otherwise the summary
is computed over the full list and the table is populated. -/
def displayResults (results : Option ResultsPayload) (st : ControllerState) : ControllerState :=
  match results with
  | none => { st with resultsVisible := false }
  | some r =>
    match r.interactions with
    | none => { st with resultsVisible := false }
    | some interactions =>
      { st with
        summary := some (displaySummary interactions)
        renderedRows := populateResultsTable interactions
        resultsVisible := true }

/-- The entry built by DTIPrediction.addToHistory (predict.js 603-611)
from the completion payload and the current state. -/
def mkHistoryEntry (d : StatusData) (st : ControllerState) : HistoryEntry :=
  { id := st.currentJob
    timestamp := st.now
    mode := st.currentMode
    status := "completed"
    resultsCount := ((d.results.bind fun r => r.interactions).map List.length).getD 0
    smiles := if st.currentMode = "single" then some st.smilesInput else none
    filename := if st.currentMode = "batch" then some st.fileNameText else none }

/-- DTIPrediction.predictionCompleted (predict.js 359-368): clears the
active flag, hides the progress UI, displays the results, records the
history entry and shows the success alert. -/
def predictionCompleted (d : StatusData) (st : ControllerState) : ControllerState :=
  let st1 := hideProgress { st with predictionActive := false }
  let st2 := displayResults d.results st1
  let st3 := { st2 with history := addToHistory (mkHistoryEntry d st2) st2.history }
  { st3 with lastAlert := some ("Prediction completed successfully!", "success") }

/-- DTIPrediction.predictionFailed (predict.js 370-375). -/
def predictionFailed (d : StatusData) (st : ControllerState) : ControllerState :=
  { hideProgress { st with predictionActive := false } with
    lastAlert := some (jsOrStr d.error "Prediction failed", "danger") }

/-- DTIPrediction.pollPredictionStatus entry (predict.js 309-313): the
status request is issued only when a job id is present and the
prediction is active. -/
def pollPredictionStatus (st : ControllerState) : ControllerState × Option Request :=
  match st.currentJob with
  | none => (st, none)
  | some j => if st.predictionActive then (st, some (Request.status j)) else (st, none)

/-- The success callback of pollPredictionStatus (predict.js 315-326):
updateProgress runs unconditionally, then the status dispatch; a
running status schedules the next poll after 2000 ms.  The second
component is the delay of the setTimeout that is scheduled, if any. -/
def pollSuccess (d : StatusData) (st : ControllerState) : ControllerState × Option ℕ :=
  let st1 := updateProgress d st
  if d.status = some "completed" then (predictionCompleted d st1, none)
  else if d.status = some "failed" then (predictionFailed d st1, none)
  else if d.status = some "running" then (st1, some 2000)
  else (st1, none)

/-- The error callback of pollPredictionStatus (predict.js 327-331): the
state is untouched, and while the prediction is active a recovery poll
is scheduled after 5000 ms. -/
def pollError (st : ControllerState) : ControllerState × Option ℕ :=
  if st.predictionActive then (st, some 5000) else (st, none)

/-- DTIPrediction.cancelPrediction entry (predict.js 377-382): a cancel
request is issued whenever a job id is present. -/
def cancelPrediction (st : ControllerState) : ControllerState × Option Request :=
  match st.currentJob with
  | none => (st, none)
  | some j => (st, some (Request.cancel j))

/-- The success callback of cancelPrediction (predict.js 383-388). -/
def cancelSuccess (st : ControllerState) : ControllerState :=
  { hideProgress { st with predictionActive := false } with
    lastAlert := some ("Prediction cancelled", "info") }

/-- DTIPrediction.handleSinglePrediction (predict.js 210-233): validates
only that the trimmed SMILES input is non-empty, then shows progress,
sets the active flag and issues the single submission request.  There
is no check of predictionActive or currentJob. -/
def handleSinglePrediction (st : ControllerState) : ControllerState × Option Request :=
  let smiles := jsTrim st.smilesInput
  if smiles = "" then
    ({ st with lastAlert := some ("Please enter a SMILES string", "warning") }, none)
  else
    let st1 := { showProgress st with predictionActive := true }
    (st1,
      some (Request.single
        { smiles := smiles
          highConfidenceOnly := st.highConfidenceChecked
          includeStructure := st.includeStructureChecked
          mode := "single" }))

/-- DTIPrediction.handleBatchPrediction (predict.js 235-262): validates
only that a file is selected and a SMILES column chosen, then shows
progress, sets the active flag and issues the batch request.  There is
no check of predictionActive or currentJob. -/
def handleBatchPrediction (st : ControllerState) : ControllerState × Option Request :=
  match st.fileSelected with
  | none => ({ st with lastAlert := some ("Please select a CSV file", "warning") }, none)
  | some f =>
    if st.smilesColumn = "" then
      ({ st with lastAlert := some ("Please select the SMILES column", "warning") }, none)
    else
      let st1 := { showProgress st with predictionActive := true }
      (st1,
        some (Request.batch
          { file := f
            smilesColumn := st.smilesColumn
            idColumn := st.idColumn
            mode := "batch" }))

/-- The success callback of startPrediction (predict.js 270-277): on
success the job id is stored and the polling loop entered; otherwise
the progress UI is hidden and the failure alert shown. -/
def startPredictionSuccess (resp : SubmitResponse) (st : ControllerState) :
    ControllerState × Option Request :=
  if resp.success then
    pollPredictionStatus { st with currentJob := resp.jobId }
  else
    ({ hideProgress st with
       lastAlert := some (jsOrStr resp.message "Prediction failed", "danger") }, none)

/-- A JSON value as it can come back from JSON.parse of the persisted
history; the array case carries parsed history entries. -/
inductive StoredJson where
  | jnull
  | jbool (b : Bool)
  | jnum (q : ℚ)
  | jstr (s : String)
  | jarr (entries : List HistoryEntry)
deriving DecidableEq

/-- JavaScript falsiness of a parsed JSON value (null, false, 0 and the
empty string are falsy; every array is truthy). -/
def jsFalsy : StoredJson → Bool
  | .jnull => true
  | .jbool b => !b
  | .jnum q => q == 0
  | .jstr s => s == ""
  | .jarr _ => false

/-- A persisted value under the history storage key, abstracted at the
level of the outcome of localStorage.getItem followed by JSON.parse:
the key may be absent (getItem returns null), hold text that is not
JSON (JSON.parse throws), or hold a JSON value. -/
inductive StorageRead where
  | absent
  | malformed (raw : String)
  | parsed (v : StoredJson)
deriving DecidableEq

/-- DTIPrediction.getPredictionHistory (predict.js 671-677):
JSON.parse(localStorage.getItem(key)) || [] inside try/catch.  An
absent key gives JSON.parse(null) = null, and null || [] is the empty
array; a parse failure is caught and gives the empty array; a parsed
falsy value gives the empty array; any other parsed value is returned
unchanged.  The function is total: no error escapes. -/
def getPredictionHistory : StorageRead → StoredJson
  | .absent => .jarr []
  | .malformed _ => .jarr []
  | .parsed v => if jsFalsy v then .jarr [] else v

/-! Concrete fixtures used by counterexamples and witnesses. -/

/-- A concrete interaction with score 0.9. -/
def iW1 : Interaction :=
  { id := some "i1", smiles := "C", protein := "P1", gene := "G1", proteinId := "T1", score := 0.9 }

/-- A concrete interaction with score 1. -/
def iW2 : Interaction :=
  { id := some "i2", smiles := "CC", protein := "P2", gene := "G2", proteinId := "T2", score := 1 }

/-! Helper lemmas. -/

lemma getConfidenceLevel_high_iff (s : ℚ) : getConfidenceLevel s = "High" ↔ 0.95 ≤ s := by
  unfold getConfidenceLevel
  split_ifs with h1 h2
  · simpa using h1
  · exact ⟨fun h => absurd h (by decide), fun h => absurd h h1⟩
  · exact ⟨fun h => absurd h (by decide), fun h => absurd h h1⟩

lemma getConfidenceLevel_medium_iff (s : ℚ) :
    getConfidenceLevel s = "Medium" ↔ 0.8 ≤ s ∧ s < 0.95 := by
  unfold getConfidenceLevel
  split_ifs with h1 h2
  · exact ⟨fun h => absurd h (by decide), fun h => absurd h1 (not_le.mpr h.2)⟩
  · exact ⟨fun _ => ⟨h2, not_le.mp h1⟩, fun _ => rfl⟩
  · exact ⟨fun h => absurd h (by decide), fun h => absurd h.1 h2⟩

lemma getConfidenceLevel_low_iff (s : ℚ) : getConfidenceLevel s = "Low" ↔ s < 0.8 := by
  unfold getConfidenceLevel
  split_ifs with h1 h2
  · refine ⟨fun h => absurd h (by decide), fun h => absurd h (not_lt.mpr ?_)⟩
    exact le_trans (by norm_num) h1
  · exact ⟨fun h => absurd h (by decide), fun h => absurd h (not_lt.mpr h2)⟩
  · exact ⟨fun _ => not_le.mp h2, fun _ => rfl⟩

/-- Claim C3: the confidence classification used for badges and filters
is exactly the fixed threshold table (High iff score at least 0.95,
Medium iff at least 0.80 and below 0.95, Low iff below 0.80), including
the boundary cases 0.95, 0.9499, 0.79999 and 1.0, and the same table is
applied everywhere a level is derived from a score: the ternary chains
of DTIPrediction.populateResultsTable agree pointwise with
PredictionResults.getConfidenceLevel and getConfidenceClass, and the
class table matches the level table tier by tier, so the two rendered
rows carry identical badges. -/
theorem confidence_threshold_table (s : ℚ) :
    (getConfidenceLevel s = "High" ↔ 0.95 ≤ s)
  ∧ (getConfidenceLevel s = "Medium" ↔ 0.8 ≤ s ∧ s < 0.95)
  ∧ (getConfidenceLevel s = "Low" ↔ s < 0.8)
  ∧ confidenceTextOf s = getConfidenceLevel s
  ∧ confidenceClassOf s = getConfidenceClass s
  ∧ (getConfidenceClass s = "success" ↔ getConfidenceLevel s = "High")
  ∧ (getConfidenceClass s = "warning" ↔ getConfidenceLevel s = "Medium")
  ∧ (getConfidenceClass s = "secondary" ↔ getConfidenceLevel s = "Low")
  ∧ (∀ i : Interaction, renderRow i = renderInteractionRow i)
  ∧ getConfidenceLevel 0.95 = "High"
  ∧ getConfidenceLevel 0.9499 = "Medium"
  ∧ getConfidenceLevel 0.79999 = "Low"
  ∧ getConfidenceLevel 1 = "High" := by
  refine ⟨getConfidenceLevel_high_iff s, getConfidenceLevel_medium_iff s,
    getConfidenceLevel_low_iff s, rfl, rfl, ?_, ?_, ?_, fun _ => rfl,
    by norm_num [getConfidenceLevel], by norm_num [getConfidenceLevel],
    by norm_num [getConfidenceLevel], by norm_num [getConfidenceLevel]⟩ <;>
  · unfold getConfidenceLevel getConfidenceClass
    split_ifs <;>
      first
      | exact Iff.intro (fun _ => rfl) (fun _ => rfl)
      | exact Iff.intro (fun h => absurd h (by decide)) (fun h => absurd h (by decide))

/-- Claim C5 counterexample: DTIPrediction.displayResults computes the
displayed average with no emptiness guard (predict.js 407-409), so on
the empty interaction list the reduce yields 0, the division is 0 / 0
= NaN (modelled as none), and the rendered average is NaN rather than
0; the division on this code path is not guarded. -/
theorem displayResults_empty_avg_unguarded : displayAvgScore [] = none := rfl

/-- Claim C5 amended: PredictionResults.updateSummaryStats guards its
division and returns total 0, highConfidenceCount 0, uniqueTargetCount
0 and averageScore 0 on the empty list, but the other code path that
computes a displayed average, DTIPrediction.displayResults, divides
unguarded and renders NaN (none) on the empty list. -/
theorem summarize_empty_guarded :
    updateSummaryStats [] =
      { totalInteractions := 0, highConfidence := 0, uniqueTargets := 0, avgScore := 0 }
  ∧ (displaySummary []).total = 0
  ∧ (displaySummary []).avgScore = none := by
  exact ⟨rfl, rfl, rfl⟩

lemma foldl_add_score (l : List Interaction) :
    ∀ a : ℚ, l.foldl (fun sum i => sum + i.score) a = a + (l.map fun i => i.score).sum := by
  induction l with
  | nil => intro a; simp
  | cons x xs ih => intro a; simp [ih]; ring

lemma jsSum_eq_sum (l : List Interaction) : jsSum l = (l.map fun i => i.score).sum := by
  simpa using foldl_add_score l 0

/-- Claim C8: for every non-empty interaction list the reported
averageScore equals the arithmetic mean of the scores rounded to 3
decimal places, the reported total is the length, and the average
rendered by DTIPrediction.displayResults is the same value. -/
theorem updateSummaryStats_average (l : List Interaction) (h : l ≠ []) :
    (updateSummaryStats l).avgScore = toFixed3 ((l.map fun i => i.score).sum / (l.length : ℚ))
  ∧ (updateSummaryStats l).totalInteractions = l.length
  ∧ displayAvgScore l = some ((updateSummaryStats l).avgScore) := by
  have hl : 0 < l.length := List.length_pos.mpr h
  refine ⟨?_, rfl, ?_⟩
  · simp [updateSummaryStats, hl, jsSum_eq_sum]
  · simp [displayAvgScore, updateSummaryStats, hl, Nat.pos_iff_ne_zero.mp hl]

/-- Claim C8 witness: on the two-interaction list with scores 0.9 and 1
the reported average is 0.950 and the total is 2. -/
theorem updateSummaryStats_average_witness :
    (updateSummaryStats [iW1, iW2]).avgScore = 0.95
  ∧ (updateSummaryStats [iW1, iW2]).totalInteractions = 2 := by
  have h := updateSummaryStats_average [iW1, iW2] (by simp)
  refine ⟨?_, h.2.1⟩
  rw [h.1]
  norm_num [iW1, iW2, toFixed3]

lemma take_append_take (n : ℕ) (A B : List HistoryEntry) :
    (A ++ B.take n).take n = (A ++ B).take n := by
  rw [List.take_append_eq_append_take, List.take_append_eq_append_take, List.take_take,
    Nat.min_eq_left (Nat.sub_le _ _)]

lemma addToHistory_eq_take (e : HistoryEntry) (h : List HistoryEntry) :
    addToHistory e h = (e :: h).take 10 := by
  simp only [addToHistory]
  split_ifs with hl
  · rfl
  · rw [List.take_of_length_le (by omega)]

lemma foldl_addToHistory (js : List HistoryEntry) :
    ∀ init : List HistoryEntry, js ≠ [] →
      js.foldl (fun h e => addToHistory e h) init = ((js.reverse ++ init).take 10) := by
  induction js with
  | nil => intro _ h; exact absurd rfl h
  | cons e t ih =>
    intro init _
    rcases eq_or_ne t [] with rfl | hne
    · simp [addToHistory_eq_take]
    · rw [List.foldl_cons, ih (addToHistory e init) hne, addToHistory_eq_take,
        take_append_take, List.reverse_cons, List.append_assoc, List.singleton_append]

/-- Claim C4: addToHistory prepends the new entry and evicts the oldest
entries past capacity 10 (it is exactly take 10 of the consed list, so
at most 10 entries ever remain), and recording 11 jobs in sequence from
any initial ledger leaves exactly the 10 most recently recorded
entries, most recent first. -/
theorem addToHistory_ledger (init js : List HistoryEntry) :
    (∀ e h, addToHistory e h = (e :: h).take 10)
  ∧ (∀ e h, (addToHistory e h).length ≤ 10)
  ∧ (js.length = 11 →
      js.foldl (fun h e => addToHistory e h) init = (js.drop 1).reverse) := by
  refine ⟨addToHistory_eq_take, ?_, ?_⟩
  · intro e h
    rw [addToHistory_eq_take]
    exact List.length_take_le _ _
  · intro h11
    have hne : js ≠ [] := by
      intro h
      rw [h] at h11
      exact absurd h11 (by decide)
    rw [foldl_addToHistory js init hne,
      List.take_append_of_le_length (by rw [List.length_reverse, h11]; omega),
      List.take_reverse, h11]

/-- A concrete history entry indexed by its resultsCount. -/
def hEntry (n : ℕ) : HistoryEntry :=
  { id := some "j", timestamp := "t", mode := "single", status := "completed",
    resultsCount := n, smiles := none, filename := none }

/-- Eleven concrete history entries recorded in order. -/
def js11 : List HistoryEntry := (List.range 11).map hEntry

/-- Claim C4 witness: recording the 11 concrete entries in sequence
into the empty ledger leaves exactly the last 10, most recent first. -/
theorem addToHistory_ledger_witness :
    js11.foldl (fun h e => addToHistory e h) [] = (js11.drop 1).reverse :=
  (addToHistory_ledger [] js11).2.2 (by decide)

/-- Claim C7: reading the persisted history when the stored value is
unreadable (the key is absent) or corrupt (the stored text is not JSON,
so JSON.parse throws and the catch branch runs) returns the empty
ledger; getPredictionHistory is a total function, so no error is
raised. -/
theorem getPredictionHistory_defensive (r : StorageRead)
    (h : r = StorageRead.absent ∨ ∃ s, r = StorageRead.malformed s) :
    getPredictionHistory r = StoredJson.jarr [] := by
  rcases h with rfl | ⟨s, rfl⟩ <;> rfl

/-- Claim C7 witness: both an absent key and non-JSON stored text read
back as the empty ledger. -/
theorem getPredictionHistory_defensive_witness :
    getPredictionHistory StorageRead.absent = StoredJson.jarr []
  ∧ getPredictionHistory (StorageRead.malformed "not json") = StoredJson.jarr [] :=
  ⟨getPredictionHistory_defensive _ (Or.inl rfl),
   getPredictionHistory_defensive _ (Or.inr ⟨_, rfl⟩)⟩

/-- The all-zero progress view. -/
def pvZero : ProgressView :=
  { progressPct := 0, processed := 0, successCount := 0, failedCount := 0, eta := "--:--" }

/-- A mid-run progress view. -/
def pvMid : ProgressView :=
  { progressPct := 40, processed := 4, successCount := 4, failedCount := 0, eta := "00:30" }

/-- A baseline controller state with no active job. -/
def stIdle : ControllerState :=
  { currentMode := "single", predictionActive := false, currentJob := none,
    smilesInput := "CCO", highConfidenceChecked := false, includeStructureChecked := false,
    fileSelected := none, smilesColumn := "", idColumn := "", fileNameText := "",
    progressView := pvZero,
    progressVisible := false, buttonsDisabled := false, cancelVisible := false,
    lastAlert := none, renderedRows := [], resultsVisible := false, summary := none,
    history := [], now := "2026-01-01T00:00:00Z" }

/-- A controller state with the job job-1 active and running. -/
def stRun : ControllerState :=
  { stIdle with
    predictionActive := true
    currentJob := some "job-1"
    progressVisible := true
    buttonsDisabled := true
    cancelVisible := true
    progressView := pvMid }

/-- A status payload reporting a running job. -/
def dRun : StatusData :=
  { status := some "running", progress := some 60, processed := some 6, total := some 10,
    successCount := some 6, failedCount := some 0, eta := some "00:20",
    results := none, error := none }

/-- Claim C6: a poll response with server status running schedules the
next poll exactly 2000 ms later; a failed poll request while the
prediction is active leaves the controller state untouched (the job is
not aborted) and schedules a recovery poll 5000 ms later; and the error
path is independent of how many failures came before, so after any
number n of consecutive failures the state is unchanged and the next
recovery poll is still scheduled at 5000 ms (no maximum retry count). -/
theorem poll_schedule_policy (st : ControllerState) (d : StatusData) :
    (d.status = some "running" → pollSuccess d st = (updateProgress d st, some 2000))
  ∧ (st.predictionActive = true → pollError st = (st, some 5000))
  ∧ (∀ n : ℕ, st.predictionActive = true →
      (fun s => (pollError s).1)^[n] st = st
      ∧ (pollError ((fun s => (pollError s).1)^[n] st)).2 = some 5000) := by
  have hfix : ∀ s : ControllerState, (pollError s).1 = s := by
    intro s
    unfold pollError
    split_ifs <;> rfl
  have herr : st.predictionActive = true → pollError st = (st, some 5000) := by
    intro h
    unfold pollError
    rw [if_pos h]
  refine ⟨?_, herr, ?_⟩
  · intro h
    unfold pollSuccess
    rw [h, if_neg (by decide), if_neg (by decide), if_pos rfl]
  · intro n h
    have hiter : (fun s => (pollError s).1)^[n] st = st :=
      Function.iterate_fixed (hfix st) n
    rw [hiter]
    exact ⟨rfl, by rw [herr h]⟩

/-- Claim C6 witness: on the concrete running state, a running status
response schedules the next poll at 2000 ms, a failed poll leaves the
state unchanged and schedules recovery at 5000 ms, and three
consecutive failures still leave the state unchanged. -/
theorem poll_schedule_policy_witness :
    pollSuccess dRun stRun = (updateProgress dRun stRun, some 2000)
  ∧ pollError stRun = (stRun, some 5000)
  ∧ (fun s => (pollError s).1)^[3] stRun = stRun := by
  have h := poll_schedule_policy stRun dRun
  exact ⟨h.1 rfl, h.2.1 rfl, (h.2.2 3 rfl).1⟩

/-- The controller state right after the cancel request succeeded. -/
def stCancelled : ControllerState := cancelSuccess stRun

/-- A late status payload reporting completion with full progress. -/
def dDone : StatusData :=
  { status := some "completed", progress := some 100, processed := some 10,
    total := some 10, successCount := some 10, failedCount := some 0,
    eta := some "00:00", results := some { interactions := some [iW1, iW2] },
    error := none }

/-- Claim C2 evaluation at the failing input: after cancelPrediction
has resolved (state stCancelled, alert Prediction cancelled), the
success callback of a still-in-flight poll carrying status completed is
processed in full rather than discarded — it overwrites the recorded
progress (40 becomes 100), switches the alert to the completion
message, shows the results section and records a history entry.  The
success callback of pollPredictionStatus never consults
predictionActive, unlike its error callback. -/
theorem pollSuccess_after_cancel_applied :
    stCancelled.predictionActive = false
  ∧ stCancelled.lastAlert = some ("Prediction cancelled", "info")
  ∧ (pollSuccess dDone stCancelled).1.lastAlert
      = some ("Prediction completed successfully!", "success")
  ∧ (pollSuccess dDone stCancelled).1.resultsVisible = true
  ∧ (pollSuccess dDone stCancelled).1.progressView.progressPct = 100
  ∧ stCancelled.progressView.progressPct = 40
  ∧ (pollSuccess dDone stCancelled).1.progressView ≠ stCancelled.progressView
  ∧ stCancelled.history = []
  ∧ (pollSuccess dDone stCancelled).1.history ≠ stCancelled.history := by
  refine ⟨rfl, rfl, rfl, rfl, rfl, rfl, ?_, rfl, ?_⟩
  · intro h
    have h1 : (pollSuccess dDone stCancelled).1.progressView.progressPct = 100 := rfl
    rw [h, show stCancelled.progressView.progressPct = 40 from rfl] at h1
    norm_num at h1
  · intro h
    have h1 : (pollSuccess dDone stCancelled).1.history.length = 1 := rfl
    rw [h] at h1
    exact absurd h1 (by decide)

/-- Claim C1 counterexample: in the concrete state stRun a job is
non-terminal (predictionActive true, currentJob job-1), yet
handleSinglePrediction issues a new submission request, surfaces no
error of any kind (the alert box is untouched), and a successful
response then assigns the new job id job-2 — instead of failing with a
ConflictError and sending nothing. -/
theorem handleSinglePrediction_while_active :
    stRun.predictionActive = true
  ∧ stRun.currentJob = some "job-1"
  ∧ (handleSinglePrediction stRun).2
      = some (Request.single
          { smiles := "CCO", highConfidenceOnly := false,
            includeStructure := false, mode := "single" })
  ∧ (handleSinglePrediction stRun).1.lastAlert = stRun.lastAlert
  ∧ (startPredictionSuccess
        { success := true, jobId := some "job-2", message := none }
        (handleSinglePrediction stRun).1).1.currentJob = some "job-2" :=
  ⟨rfl, rfl, rfl, rfl, rfl⟩

/-- Claim C1 amended: the submission handlers perform no check of
predictionActive or currentJob and there is no ConflictError anywhere
in the code (the only mitigation is that showProgress disables the
submit buttons while a job runs): whenever its own input validation
passes — for any controller state, active job or not —
handleSinglePrediction issues a fresh submission request, re-enters the
progress UI, and a successful response overwrites currentJob with the
newly issued job id; handleBatchPrediction behaves the same way. -/
theorem handleSubmit_no_conflict_guard (st : ControllerState) :
    (jsTrim st.smilesInput ≠ "" →
        (handleSinglePrediction st).2
          = some (Request.single
              { smiles := jsTrim st.smilesInput
                highConfidenceOnly := st.highConfidenceChecked
                includeStructure := st.includeStructureChecked
                mode := "single" })
      ∧ (handleSinglePrediction st).1.predictionActive = true
      ∧ (handleSinglePrediction st).1.buttonsDisabled = true
      ∧ (handleSinglePrediction st).1.lastAlert = st.lastAlert
      ∧ ∀ j : String,
          (startPredictionSuccess { success := true, jobId := some j, message := none }
            (handleSinglePrediction st).1).1.currentJob = some j)
  ∧ (∀ f : String, st.fileSelected = some f → st.smilesColumn ≠ "" →
        (handleBatchPrediction st).2
          = some (Request.batch
              { file := f, smilesColumn := st.smilesColumn,
                idColumn := st.idColumn, mode := "batch" })
      ∧ (handleBatchPrediction st).1.predictionActive = true) := by
  constructor
  · intro h
    simp only [handleSinglePrediction]
    rw [if_neg h]
    exact ⟨rfl, rfl, rfl, rfl, fun _ => rfl⟩
  · intro f hf hcol
    simp only [handleBatchPrediction]
    rw [hf]
    simp only []
    rw [if_neg hcol]
    exact ⟨rfl, rfl⟩

/-- A concrete state with an active job and a valid batch form. -/
def stBatch : ControllerState :=
  { stRun with
    currentMode := "batch"
    fileSelected := some "data.csv"
    smilesColumn := "smiles"
    idColumn := "id" }

/-- Claim C1 amended witness: on the concrete active states stRun and
stBatch both handlers issue a new request and a success response
installs the new job id. -/
theorem handleSubmit_no_conflict_guard_witness :
    (handleSinglePrediction stRun).2
      = some (Request.single
          { smiles := "CCO", highConfidenceOnly := false,
            includeStructure := false, mode := "single" })
  ∧ (startPredictionSuccess { success := true, jobId := some "job-2", message := none }
      (handleSinglePrediction stRun).1).1.currentJob = some "job-2"
  ∧ (handleBatchPrediction stBatch).2
      = some (Request.batch
          { file := "data.csv", smilesColumn := "smiles", idColumn := "id", mode := "batch" }) := by
  have h1 := (handleSubmit_no_conflict_guard stRun).1 (by decide)
  have h2 := (handleSubmit_no_conflict_guard stBatch).2 "data.csv" rfl (by decide)
  exact ⟨h1.1, h1.2.2.2.2 "job-2", h2.1⟩

lemma filter_orderedInsert (a : Interaction) (s : ℚ) (l : List Interaction) :
    (List.orderedInsert scoreGE a l).filter (fun i => decide (i.score = s))
      = if a.score = s
        then a :: l.filter (fun i => decide (i.score = s))
        else l.filter (fun i => decide (i.score = s)) := by
  induction l with
  | nil =>
    simp only [List.orderedInsert, List.filter]
    split_ifs with h <;> simp [h]
  | cons b t ih =>
    by_cases hba : scoreGE a b
    · simp only [List.orderedInsert, if_pos hba, List.filter_cons]
      by_cases has : a.score = s <;> by_cases hbs : b.score = s <;> simp [has, hbs]
    · simp only [List.orderedInsert, if_neg hba, List.filter_cons, ih]
      by_cases has : a.score = s
      · have hbs : ¬ b.score = s := by
          have hlt : a.score < b.score := not_le.mp hba
          rw [has] at hlt
          intro hb
          rw [hb] at hlt
          exact lt_irrefl _ hlt
        simp [has, hbs]
      · simp [has]

/-- Claim C9: the sort by the score key used by
populateInteractionsTable orders interactions by descending score
(every element is followed only by elements of smaller or equal score)
and is stable: for every score value, the subsequence of interactions
carrying that score is exactly the subsequence of the input carrying
that score, in input order — so equal-score interactions retain their
relative input order; the rendered table is exactly the sorted list,
row by row. -/
theorem populateInteractionsTable_sorted_stable (l : List Interaction) :
    List.Pairwise (fun a b => b.score ≤ a.score) (sortInteractions l)
  ∧ (∀ s : ℚ, (sortInteractions l).filter (fun i => decide (i.score = s))
        = l.filter (fun i => decide (i.score = s)))
  ∧ populateInteractionsTable l = (sortInteractions l).map renderInteractionRow := by
  refine ⟨List.sorted_insertionSort scoreGE l, ?_, rfl⟩
  intro s
  induction l with
  | nil => rfl
  | cons x t ih =>
    have hstep : sortInteractions (x :: t) = List.orderedInsert scoreGE x (sortInteractions t) :=
      rfl
    rw [hstep, filter_orderedInsert, ih]
    by_cases h : x.score = s <;> simp [List.filter_cons, h]

/-- Claim C10: when more than 100 interactions are returned, the
results table of the prediction page renders exactly the first 100
interactions in input order (row k is interaction k for k below 100,
and no row exists at index 100 or beyond), while the summary statistics
of displayResults are computed over the full list. -/
theorem populateResultsTable_caps (l : List Interaction) (h : 100 < l.length) :
    (populateResultsTable l).length = 100
  ∧ (∀ k : ℕ, k < 100 → (populateResultsTable l)[k]? = (l[k]?).map renderRow)
  ∧ (∀ k : ℕ, 100 ≤ k → (populateResultsTable l)[k]? = none)
  ∧ (displaySummary l).total = l.length := by
  have hlen : (populateResultsTable l).length = 100 := by
    simp only [populateResultsTable, List.length_map, List.length_take]
    omega
  refine ⟨hlen, ?_, ?_, rfl⟩
  · intro k hk
    rw [populateResultsTable, List.getElem?_map, List.getElem?_take_of_lt hk]
  · intro k hk
    exact List.getElem?_eq_none (by omega)

/-- A list of 101 concrete interactions. -/
def l101 : List Interaction := List.replicate 101 iW1

/-- Claim C10 witness: on the concrete 101-element list the table holds
exactly 100 rows while the summary total is the full length 101. -/
theorem populateResultsTable_caps_witness :
    (populateResultsTable l101).length = 100
  ∧ (displaySummary l101).total = l101.length
  ∧ l101.length = 101 := by
  have h := populateResultsTable_caps l101 (by simp [l101])
  exact ⟨h.1, h.2.2.2, by simp [l101]⟩

end DTI
